import Mathlib

/-!
Verification of the incident intake and per-target sequential processing
engine: a shallow embedding of the Python sources
(`api/services/incident_queue.py`, `api/routers/incidents/analyze.py`,
`api/routers/webhooks/logs.py`, `api/routers/webhooks/vercel.py`) together
with theorems checking the natural-language specification against it.
-/

namespace Sanos

/-! ## JSON values

The Python code stores `dict | list | None` payloads (incident `logs`,
analysis `suggested_fix`).  We embed them as a small mutual inductive so
that structural recursion (for Python `str(...)` rendering) reduces
definitionally. -/

mutual

inductive JsonV where
  | str (s : String)
  | num (n : Int)
  | bool (b : Bool)
  | null
  | arr (xs : JsonArr)
  | obj (xs : JsonObj)

inductive JsonArr where
  | nil
  | cons (v : JsonV) (tl : JsonArr)

inductive JsonObj where
  | nil
  | cons (k : String) (v : JsonV) (tl : JsonObj)

end

/-- Python truthiness of a JSON value (`if logs:` in the source): empty
dict/list, empty string, `0`, `False` and `None` are falsy. -/
def JsonV.truthy : JsonV → Bool
  | .str s => s ≠ ""
  | .num n => n ≠ 0
  | .bool b => b
  | .null => false
  | .arr .nil => false
  | .arr (.cons _ _) => true
  | .obj .nil => false
  | .obj (.cons _ _ _) => true

mutual

/-- Python `str(...)` rendering of a JSON value (used for
`logs_str = str(logs)` when building the agent prompt). -/
def JsonV.pyStr : JsonV → String
  | .str s => "'" ++ s ++ "'"
  | .num n => toString n
  | .bool b => if b then "True" else "False"
  | .null => "None"
  | .arr xs => "[" ++ JsonArr.pyStr xs ++ "]"
  | .obj xs => "\x7b" ++ JsonObj.pyStr xs ++ "\x7d"

/-- Rendering of the elements of a JSON array, comma separated. -/
def JsonArr.pyStr : JsonArr → String
  | .nil => ""
  | .cons v .nil => JsonV.pyStr v
  | .cons v tl => JsonV.pyStr v ++ ", " ++ JsonArr.pyStr tl

/-- Rendering of the fields of a JSON object, comma separated. -/
def JsonObj.pyStr : JsonObj → String
  | .nil => ""
  | .cons k v .nil => "'" ++ k ++ "': " ++ JsonV.pyStr v
  | .cons k v tl => "'" ++ k ++ "': " ++ JsonV.pyStr v ++ ", " ++ JsonObj.pyStr tl

end

/-! ## Data model (`api/models/*.py`) -/

/-- One row of the `incidents` table (`api/models/incident.py`). -/
structure IncidentR where
  id : Nat
  app_id : Nat
  type : String
  source : String
  status : String
  error_message : String
  stack_trace : Option String
  logs : Option JsonV

/-- One row of the `analyses` table, with the fields the runner in
`api/routers/incidents/analyze.py` constructs (`llm_model`, `prompt`,
`root_cause`, `suggested_fix`, `files_analyzed`, `commits_analyzed`,
`pr_url`, `pr_number`, `branch_name`). -/
structure AnalysisR where
  incident_id : Nat
  llm_model : String
  prompt : String
  root_cause : String
  suggested_fix : Option JsonV
  files_analyzed : Option (List String)
  commits_analyzed : Option (List String)
  pr_url : Option String
  pr_number : Option Nat
  branch_name : Option String

/-- One row of the `apps` table (`api/models/app.py`), restricted to the
fields the webhook handlers and the queue read. -/
structure AppR where
  id : Nat
  user_id : Nat
  repo_owner : String
  repo_name : String
  vercel_project_id : Option String
  webhook_key : String
  pipeline_step : String

/-- One row of the `users` table; `access_token` is the delegated GitHub
credential the endpoints check before enqueueing. -/
structure UserR where
  id : Nat
  access_token : String

/-- The durable store: the tables the embedded handlers touch, plus the
autoincrement counter for incident ids. -/
structure DB where
  apps : List AppR
  users : List UserR
  incidents : List IncidentR
  analyses : List AnalysisR
  next_incident_id : Nat

/-- The lookup `db.query(Incident).filter(Incident.id == iid).first()`. -/
def findIncident (db : DB) (iid : Nat) : Option IncidentR :=
  db.incidents.find? (fun i => i.id == iid)

/-- Status of an incident row, when present. -/
def incidentStatus (db : DB) (iid : Nat) : Option String :=
  (findIncident db iid).map (·.status)

/-- ORM-style update of one incident's `status` column. -/
def setIncidentStatus (db : DB) (iid : Nat) (st : String) : DB :=
  { db with
    incidents := db.incidents.map (fun i => if i.id = iid then { i with status := st } else i) }

/-- The non-terminal incident statuses used by both dedup queries:
`["open", "analyzing", "pr_created"]`. -/
def nonTerminalStatuses : List String := ["open", "analyzing", "pr_created"]

/-- Ingest-side dedup query (`logs.py` lines 29–38 and `vercel.py` lines
126–135): first incident with the same `app_id`, `source` and
`error_message` in a non-terminal status. -/
def findDuplicateIngest (db : DB) (app_id : Nat) (source error_message : String) :
    Option IncidentR :=
  db.incidents.find? (fun i =>
    i.app_id == app_id && i.source == source && i.error_message == error_message &&
      nonTerminalStatuses.contains i.status)

/-- Dequeue-side dedup query (`incident_queue.py` lines 53–62): first
*other* incident with the same `app_id` and `error_message` in a
non-terminal status.  Note: unlike the ingest-side query, the `source`
column is not part of the filter. -/
def findDuplicateDequeue (db : DB) (app_id : Nat) (error_message : String)
    (incident_id : Nat) : Option IncidentR :=
  db.incidents.find? (fun i =>
    i.app_id == app_id && i.error_message == error_message && i.id != incident_id &&
      nonTerminalStatuses.contains i.status)

/-- The Dedup Filter as the spec words it (§4.1): duplicate when any
incident with the same `(target_id, source, error_message)` tuple,
excluding the one being evaluated, is in a non-terminal status.  This
definition follows the spec, for comparison with `findDuplicateDequeue`,
which is translated from the source. -/
def shouldAdmitSpec (db : DB) (app_id : Nat) (source error_message : String)
    (excluding : Option Nat) : Bool :=
  !(db.incidents.any (fun i =>
    i.app_id == app_id && i.source == source && i.error_message == error_message &&
      excluding != some i.id && nonTerminalStatuses.contains i.status))

/-! ## Tolerant parsing of the agent output
(`analyze.py` lines 78–105)

The runner extracts fields from the agent's free-form output with Python
`re.search`.  We embed each search as an executable function on character
lists with the same observable result (leftmost match, greedy `\s*`,
minimal `(.+?)` bounded by the `(?=\nLABEL:|$)` lookahead, where `$`
also matches just before a final newline). -/

/-- Python `\s` / `str.strip` whitespace (ASCII part). -/
def pyIsSpace (c : Char) : Bool :=
  c = ' ' || c = '\t' || c = '\n' || c = '\r' || c = '\x0b' || c = '\x0c'

/-- Python `str.strip()`. -/
def pyStrip (s : String) : String :=
  String.mk (((s.toList.dropWhile pyIsSpace).reverse.dropWhile pyIsSpace).reverse)

/-- Suffix just after the first occurrence of `pat`, when `pat` occurs. -/
def afterFirst : List Char → List Char → Option (List Char)
  | [], pat => if pat.isEmpty then some [] else none
  | c :: tl, pat =>
    if pat.isPrefixOf (c :: tl) then some ((c :: tl).drop pat.length)
    else afterFirst tl pat

/-- Does the `(?=\nSTOP|$)` lookahead hold at this suffix of the text?
It holds where `stopMark` starts, at the very end, and just before a
final newline. -/
def lookaheadHere (suffix stopMark : List Char) : Bool :=
  stopMark.isPrefixOf suffix || suffix == [] || suffix == ['\n']

/-- Characters consumed by the minimal `(.+?)` tail after its mandatory
first character: extend until the lookahead holds. -/
def takeUntilLookahead : List Char → List Char → List Char
  | [], _ => []
  | c :: tl, stopMark =>
    if lookaheadHere (c :: tl) stopMark then []
    else c :: takeUntilLookahead tl stopMark

/-- The capture `group(1)` of `LABEL:\s*(.+?)(?=\nSTOP|$)` matched against `rest`,
the text after `LABEL:`.  The greedy `\s*` takes the whole whitespace
run when at least one character is left for `(.+?)`; on an all-whitespace
`rest` it backtracks one character; on an empty `rest` the match fails. -/
def matchGroupAfter (rest stopMark : List Char) : Option (List Char) :=
  if rest.isEmpty then none
  else
    let ws := rest.takeWhile pyIsSpace
    if ws.length = rest.length then
      some (match rest.reverse.head? with
            | some c => [c]
            | none => [])
    else
      some (match rest.drop ws.length with
            | [] => []
            | c :: tl => c :: takeUntilLookahead tl stopMark)

/-- One `re.search(r"LABEL:\s*(.+?)(?=\nSTOP|$)", out, re.DOTALL)`,
returning `group(1)`. -/
def parseFieldRaw (out label stopMark : String) : Option String :=
  match afterFirst out.toList label.toList with
  | none => none
  | some rest => (matchGroupAfter rest stopMark.toList).map String.mk

/-- The comprehension `[f.strip() for f in g.strip().split(",") if f.strip()]`. -/
def pySplitFields (g : String) : List String :=
  (((pyStrip g).splitOn ",").map pyStrip).filter (· ≠ "")

/-- The character class `[A-Za-z0-9_.\-]` of the PR-URL pattern. -/
def isWordChar (c : Char) : Bool :=
  c.isAlphanum || c = '_' || c = '.' || c = '-'

/-- Literal head of the PR-URL pattern. -/
def prUrlLit : List Char := "https://github.com/".toList

/-- Literal `/pull/` segment of the PR-URL pattern. -/
def pullLit : List Char := "/pull/".toList

/-- Numeric value of a digit run (the captured PR number). -/
def digitsToNat (ds : List Char) : Nat :=
  ds.foldl (fun n c => n * 10 + (c.toNat - 48)) 0

/-- Match `https://github\.com/[A-Za-z0-9_.\-]+/[A-Za-z0-9_.\-]+/pull/(\d+)`
anchored at the start of `cs`; returns the matched text and captured
number.  Greedy runs over classes that exclude `/` need no backtracking:
shrinking a run leaves a class character where a `/` is required. -/
def matchPRUrlAt (cs : List Char) : Option (String × Nat) :=
  if prUrlLit.isPrefixOf cs then
    let r1 := cs.drop prUrlLit.length
    let owner := r1.takeWhile isWordChar
    if owner.isEmpty then none
    else
      match r1.drop owner.length with
      | '/' :: r3 =>
        let repo := r3.takeWhile isWordChar
        let r4 := r3.drop repo.length
        if repo.isEmpty then none
        else if pullLit.isPrefixOf r4 then
          let digits := (r4.drop pullLit.length).takeWhile Char.isDigit
          if digits.isEmpty then none
          else
            some (String.mk (prUrlLit ++ owner ++ '/' :: repo ++ pullLit ++ digits),
                  digitsToNat digits)
        else none
      | _ => none
  else none

/-- Leftmost match of the PR-URL pattern in the agent output
(`re.search` scans start positions left to right). -/
def findPRUrlAux : List Char → Option (String × Nat)
  | [] => none
  | c :: tl =>
    match matchPRUrlAt (c :: tl) with
    | some r => some r
    | none => findPRUrlAux tl

/-- The `re.search` for the fix-proposal URL over the whole agent output. -/
def findPRUrl (out : String) : Option (String × Nat) :=
  findPRUrlAux out.toList

/-! Spec-side fix-proposal URL pattern.  §6 of the spec describes the
recognized pattern as `https://<host>/<owner>/<repo>/pull/<number>` with
a generic host.  The next two definitions follow the spec's words, for
comparison with `findPRUrl`, which is translated from the source. -/

/-- A character that can appear in a URL path segment: not a `/`, not
whitespace. -/
def isSegChar (c : Char) : Bool :=
  c ≠ '/' && !pyIsSpace c

/-- Match `https://<host>/<owner>/<repo>/pull/<number>` (any host) at the
start of `cs`, as the spec words the pattern. -/
def specMatchFixUrlAt (cs : List Char) : Bool :=
  if "https://".toList.isPrefixOf cs then
    let r0 := cs.drop 8
    let host := r0.takeWhile isSegChar
    if host.isEmpty then false
    else
      match r0.drop host.length with
      | '/' :: r1 =>
        let owner := r1.takeWhile isSegChar
        if owner.isEmpty then false
        else
          match r1.drop owner.length with
          | '/' :: r2 =>
            let repo := r2.takeWhile isSegChar
            let r3 := r2.drop repo.length
            if repo.isEmpty then false
            else if pullLit.isPrefixOf r3 then
              !((r3.drop pullLit.length).takeWhile Char.isDigit).isEmpty
            else false
          | _ => false
      | _ => false
  else false

/-- Does the output contain a well-formed fix-proposal URL in the spec's
generic-host sense? -/
def specContainsFixUrlAux : List Char → Bool
  | [] => false
  | c :: tl => specMatchFixUrlAt (c :: tl) || specContainsFixUrlAux tl

/-- Spec-side containment check over the whole agent output. -/
def specContainsFixProposalUrl (out : String) : Bool :=
  specContainsFixUrlAux out.toList

/-! ## Queue items and the Remediation Task Runner
(`incident_queue.py`, `analyze.py` lines 19–147) -/

/-- The in-memory queue item built by `enqueue_incident` (`incident_queue.py`
lines 25–34).  It carries no `source` field. -/
structure QItem where
  incident_id : Nat
  app_id : Nat
  github_token : String
  repo_owner : String
  repo_name : String
  error_message : String
  stack_trace : Option String
  logs : Option JsonV

/-- Outcome of `await run_dedalus_agent(...)`: `ok` carries the
`agent_output` text, `error` the exception rendered as
`"{type(e).__name__}: {e}"`. -/
abbrev AgentResult := Except String String

/-- Python `stack_trace or "No stack trace available"`. -/
def stackStr : Option String → String
  | none => "No stack trace available"
  | some s => if s = "" then "No stack trace available" else s

/-- Python `str(logs) if logs else "No additional logs"`. -/
def logsStr : Option JsonV → String
  | none => "No additional logs"
  | some j => if j.truthy then j.pyStr else "No additional logs"

/-- Python `s or d` for an optional string (empty string is falsy). -/
def pyOrStr (o : Option String) (d : String) : String :=
  match o with
  | some s => if s = "" then d else s
  | none => d

/-- Python `s[-n:]`. -/
def pyTakeLast (n : Nat) (s : String) : String :=
  String.mk (s.toList.drop (s.toList.length - n))

/-- Python `s[:n]`. -/
def pyTakeFirst (n : Nat) (s : String) : String :=
  String.mk (s.toList.take n)

/-- The remediation task description (`analyze.py` lines 36–72), the
f-string sent to the agent, with its interpolations made explicit. -/
def buildPrompt (repo_owner repo_name : String) (incident_id : Nat)
    (error_message stack_str logs_str : String) : String :=
  "You are analyzing a production incident for a Next.js application and creating a fix.\n\n" ++
  "Repository: " ++ repo_owner ++ "/" ++ repo_name ++ "\n\n" ++
  "INCIDENT DETAILS:\n" ++
  "- Error Message: " ++ error_message ++ "\n" ++
  "- Stack Trace: " ++ stack_str ++ "\n" ++
  "- Logs: " ++ logs_str ++ "\n\n" ++
  "STEPS:\n\n" ++
  "1. First, list the recent commits on the default branch (try `main`, if that fails try `master`). You need to find the last 3 commits that do NOT have \"[Sanos]\" in their commit message. These are user commits that may have introduced the bug.\n\n" ++
  "2. For each of those 3 commits, use `get_commit_diff` to see what files were changed and what the changes were.\n\n" ++
  "3. Analyze the error message, stack trace, and logs against the diffs from those 3 commits. Determine which commit and which file change is most likely responsible for the incident.\n\n" ++
  "4. Once you identify the problematic file(s), use `get_file_content` to read the current version of each file.\n\n" ++
  "5. Create a new branch called `sanos/fix-incident-" ++ toString incident_id ++ "` from the default branch.\n\n" ++
  "6. Fix the issue by updating the problematic file(s). Every commit message MUST start with \"[Sanos]\".\n" ++
  "   For example: \"[Sanos] Fix null reference in user handler\"\n\n" ++
  "7. Create a pull request from `sanos/fix-incident-" ++ toString incident_id ++ "` to the default branch with:\n" ++
  "   - Title: \"[Sanos] Fix: " ++ pyTakeFirst 80 error_message ++ "\"\n" ++
  "   - Body explaining the root cause and the fix\n\n" ++
  "IMPORTANT: After creating the PR, output your analysis in this exact format:\n\n" ++
  "ROOT_CAUSE: <one-paragraph explanation of what caused the error>\n" ++
  "FILES_ANALYZED: <comma-separated list of file paths you examined>\n" ++
  "COMMITS_ANALYZED: <comma-separated list of short SHAs you examined>\n" ++
  "SANOS_PR=https://github.com/" ++ repo_owner ++ "/" ++ repo_name ++ "/pull/NUMBER\n\n" ++
  "Replace NUMBER with the actual PR number.\n"

/-- The search `re.search(r"ROOT_CAUSE:\s*(.+?)(?=\nFILES_ANALYZED:|$)", ...)` with
the subsequent `.strip()`. -/
def parseRootCause (out : String) : Option String :=
  (parseFieldRaw out "ROOT_CAUSE:" "\nFILES_ANALYZED:").map pyStrip

/-- The `FILES_ANALYZED` search plus the split-and-strip comprehension. -/
def parseFilesAnalyzed (out : String) : Option (List String) :=
  (parseFieldRaw out "FILES_ANALYZED:" "\nCOMMITS_ANALYZED:").map pySplitFields

/-- The `COMMITS_ANALYZED` search plus the split-and-strip comprehension. -/
def parseCommitsAnalyzed (out : String) : Option (List String) :=
  (parseFieldRaw out "COMMITS_ANALYZED:" "\nSANOS_PR=").map pySplitFields

/-- The prompt built for a queue item (`analyze.py` lines 33–72). -/
def itemPrompt (item : QItem) : String :=
  buildPrompt item.repo_owner item.repo_name item.incident_id item.error_message
    (stackStr item.stack_trace) (logsStr item.logs)

/-- The part of `_run_incident_analysis` after the incident lookup and the
`status = "analyzing"` write: the inner `try`/`except` (`analyze.py`
lines 74–144).  On agent success it parses the output, appends one
Analysis row and sets the status per the PR URL; on agent failure it
appends one failure Analysis row and resets the status to `open`. -/
def runnerFinish (db : DB) (item : QItem) (res : AgentResult) : DB :=
  let prompt := itemPrompt item
  match res with
  | .error e =>
    let analysis : AnalysisR :=
      { incident_id := item.incident_id, llm_model := "claude-sonnet-4", prompt := prompt,
        root_cause := "Analysis failed: " ++ e, suggested_fix := none,
        files_analyzed := none, commits_analyzed := none,
        pr_url := none, pr_number := none, branch_name := none }
    setIncidentStatus { db with analyses := db.analyses ++ [analysis] }
      item.incident_id "open"
  | .ok agent_output =>
    let pr := findPRUrl agent_output
    let analysis : AnalysisR :=
      { incident_id := item.incident_id, llm_model := "claude-sonnet-4", prompt := prompt,
        root_cause := pyOrStr (parseRootCause agent_output)
          "Analysis completed but root cause could not be parsed.",
        suggested_fix := some (.obj (.cons "agent_output"
          (.str (pyTakeLast 2000 agent_output)) .nil)),
        files_analyzed := parseFilesAnalyzed agent_output,
        commits_analyzed := parseCommitsAnalyzed agent_output,
        pr_url := pr.map (·.1), pr_number := pr.map (·.2),
        branch_name := some ("sanos/fix-incident-" ++ toString item.incident_id) }
    setIncidentStatus { db with analyses := db.analyses ++ [analysis] }
      item.incident_id (if pr.isSome then "pr_created" else "analyzing")

/-- The runner `_run_incident_analysis` (`analyze.py` lines 19–147): return if the
incident row is gone, otherwise durably mark it `analyzing` and run the
inner `try`/`except` on the agent outcome. -/
def run_incident_analysis (db : DB) (item : QItem) (res : AgentResult) : DB :=
  match findIncident db item.incident_id with
  | none => db
  | some _ => runnerFinish (setIncidentStatus db item.incident_id "analyzing") item res

/-- One iteration of the `_worker` loop body for a dequeued item
(`incident_queue.py` lines 46–81): the dequeue-time dedup re-check, then
the analysis; on dedup hit the item is skipped with no state change. -/
def workerStep (db : DB) (item : QItem) (res : AgentResult) : DB :=
  if (findDuplicateDequeue db item.app_id item.error_message item.incident_id).isSome then db
  else run_incident_analysis db item res

/-- The `_worker` loop draining a list of queued items, each with its
agent outcome, one at a time in order. -/
def workerRun (db : DB) (l : List (QItem × AgentResult)) : DB :=
  l.foldl (fun d p => workerStep d p.1 p.2) db

/-! ## Operational model of the per-target queue
(`incident_queue.py` lines 7–83)

The event loop is single-threaded and cooperative.  `enqueue_incident` is
a plain synchronous function, so the queue append, the worker-existence
check and `create_task` form one atomic segment.  Inside `_worker`, the
only suspension point of one loop iteration is the `await` on the agent
call inside `_run_incident_analysis`; the emptiness check, `get_nowait`,
the dedup query, the `status = "analyzing"` write and — on loop exit —
the `finally: _app_workers.pop(app_id, None)` together with the task's
completion are all synchronous.  Hence a worker that has decided to exit
is never observable as "finished but still registered": the pop precedes
task completion inside one atomic segment, so `enqueue_incident`'s check
`app_id not in _app_workers or _app_workers[app_id].done()` reduces to
absence from the map.  The model splits each loop iteration at the one
real suspension point, and conservatively also between consecutive
skipped items (adding interleavings never removes a safety violation). -/

/-- Worker control state: at the top of the `while not queue.empty()`
loop, or suspended at the `await` while processing one item. -/
inductive WCtl where
  | atLoop
  | processing (item : QItem)

/-- Whole-system state: the durable store, the per-app queues and worker
registry (`_app_queues`, `_app_workers`), plus ghost per-app traces of
enqueued and dequeued items used to state the FIFO guarantee. -/
structure SysState where
  db : DB
  queues : Nat → List QItem
  workers : Nat → Option WCtl
  enq_trace : Nat → List QItem
  deq_trace : Nat → List QItem

/-- Pointwise update of a per-app map. -/
def upd {β : Type} (f : Nat → β) (a : Nat) (v : β) : Nat → β :=
  fun x => if x = a then v else f x

/-- The call `enqueue_incident` (`incident_queue.py` lines 11–38): append the item
to its app's queue and start a worker unless one is registered. -/
def enqueueStep (s : SysState) (item : QItem) : SysState :=
  { s with
    queues := upd s.queues item.app_id (s.queues item.app_id ++ [item]),
    workers := match s.workers item.app_id with
               | none => upd s.workers item.app_id (some .atLoop)
               | some _ => s.workers,
    enq_trace := upd s.enq_trace item.app_id (s.enq_trace item.app_id ++ [item]) }

/-- A worker dequeues an item and drops it (dedup hit, or the incident
row is gone so `_run_incident_analysis` returns without suspending). -/
def dequeueSkipStep (s : SysState) (a : Nat) (item : QItem) (rest : List QItem) : SysState :=
  { s with
    queues := upd s.queues a rest,
    deq_trace := upd s.deq_trace a (s.deq_trace a ++ [item]) }

/-- A worker dequeues an item, passes the dedup re-check, durably marks
the incident `analyzing` and suspends at the agent call. -/
def dequeueStartStep (s : SysState) (a : Nat) (item : QItem) (rest : List QItem) : SysState :=
  { s with
    db := setIncidentStatus s.db item.incident_id "analyzing",
    queues := upd s.queues a rest,
    workers := upd s.workers a (some (.processing item)),
    deq_trace := upd s.deq_trace a (s.deq_trace a ++ [item]) }

/-- The agent call returns (or raises); the worker persists the outcome
and returns to the top of its loop. -/
def finishStep (s : SysState) (a : Nat) (item : QItem) (res : AgentResult) : SysState :=
  { s with
    db := runnerFinish s.db item res,
    workers := upd s.workers a (some .atLoop) }

/-- The worker observes an empty queue, leaves the loop, and in the same
atomic segment unregisters itself and completes. -/
def exitStep (s : SysState) (a : Nat) : SysState :=
  { s with workers := upd s.workers a none }

/-- One atomic transition of the system. -/
inductive Step : SysState → SysState → Prop where
  | enqueue (s : SysState) (item : QItem) :
      Step s (enqueueStep s item)
  | dequeue_skip (s : SysState) (a : Nat) (item : QItem) (rest : List QItem)
      (hw : s.workers a = some .atLoop) (hq : s.queues a = item :: rest)
      (hdup : (findDuplicateDequeue s.db item.app_id item.error_message
        item.incident_id).isSome = true) :
      Step s (dequeueSkipStep s a item rest)
  | dequeue_missing (s : SysState) (a : Nat) (item : QItem) (rest : List QItem)
      (hw : s.workers a = some .atLoop) (hq : s.queues a = item :: rest)
      (hdup : (findDuplicateDequeue s.db item.app_id item.error_message
        item.incident_id).isSome = false)
      (hmiss : findIncident s.db item.incident_id = none) :
      Step s (dequeueSkipStep s a item rest)
  | dequeue_start (s : SysState) (a : Nat) (item : QItem) (rest : List QItem)
      (hw : s.workers a = some .atLoop) (hq : s.queues a = item :: rest)
      (hdup : (findDuplicateDequeue s.db item.app_id item.error_message
        item.incident_id).isSome = false)
      (hfound : (findIncident s.db item.incident_id).isSome = true) :
      Step s (dequeueStartStep s a item rest)
  | finish (s : SysState) (a : Nat) (item : QItem) (res : AgentResult)
      (hw : s.workers a = some (.processing item)) :
      Step s (finishStep s a item res)
  | exit (s : SysState) (a : Nat)
      (hw : s.workers a = some .atLoop) (hq : s.queues a = []) :
      Step s (exitStep s a)

/-- System start: empty queues, no workers, an arbitrary durable store. -/
def initState (db : DB) : SysState :=
  { db := db, queues := fun _ => [], workers := fun _ => none,
    enq_trace := fun _ => [], deq_trace := fun _ => [] }

/-- States reachable from the start state by any interleaving. -/
def Reachable (db0 : DB) (s : SysState) : Prop :=
  Relation.ReflTransGen Step (initState db0) s

/-! ## Ingest endpoints
(`api/routers/webhooks/logs.py`, `api/routers/webhooks/vercel.py`)

Each endpoint is embedded as a function from the store and the request to
the response, the new store, and the `enqueue_incident` call it makes, if
any (the queue mutation itself is `enqueueStep` above). -/

/-- Body of the runtime-error webhook (`logs.py` lines 14–19). -/
structure ErrorPayload where
  webhook_key : String
  source : String
  error_message : String
  stack_trace : Option String
  logs : Option JsonV

/-- Response of the runtime-error webhook. -/
inductive LogsResp where
  | created (incident_id : Nat)
  | duplicate (incident_id : Nat)
  | httpError (code : Nat) (detail : String)
deriving DecidableEq

/-- The endpoint `receive_error_log` (`logs.py` lines 22–69): authenticate by webhook
key, dedup, persist the incident, and enqueue it when the app owner's
GitHub token is available. -/
def receive_error_log (db : DB) (payload : ErrorPayload) :
    LogsResp × DB × Option QItem :=
  match db.apps.find? (fun a => a.webhook_key == payload.webhook_key) with
  | none => (.httpError 404 "Unknown webhook key", db, none)
  | some app =>
    match findDuplicateIngest db app.id payload.source payload.error_message with
    | some existing => (.duplicate existing.id, db, none)
    | none =>
      let incident : IncidentR :=
        { id := db.next_incident_id, app_id := app.id, type := "runtime_error",
          source := payload.source, status := "open",
          error_message := payload.error_message,
          stack_trace := payload.stack_trace, logs := payload.logs }
      let db1 := { db with incidents := db.incidents ++ [incident],
                           next_incident_id := db.next_incident_id + 1 }
      let enq : Option QItem :=
        match db.users.find? (fun u => u.id == app.user_id) with
        | some user =>
          if user.access_token ≠ "" then
            some { incident_id := incident.id, app_id := app.id,
                   github_token := user.access_token,
                   repo_owner := app.repo_owner, repo_name := app.repo_name,
                   error_message := payload.error_message,
                   stack_trace := payload.stack_trace, logs := payload.logs }
          else none
        | none => none
      (.created incident.id, db1, enq)

/-- Python truthiness of an optional string. -/
def truthyOpt : Option String → Bool
  | none => false
  | some s => s ≠ ""

/-- The check `_verify_signature` (`vercel.py` lines 24–35), parameterized by the
HMAC-SHA1 hexdigest function `hmacSha1Hex secret payload`. -/
def verifySignature (hmacSha1Hex : String → String → String)
    (payload signature secret : String) : Bool :=
  if secret = "" then true else hmacSha1Hex secret payload == signature

/-- The signature gate of the handler (`vercel.py` lines 81–85): reject
only when the configured secret and the carried header are both truthy
and verification fails. -/
def vercelSigReject (hmacSha1Hex : String → String → String)
    (secret signature : Option String) (payload : String) : Bool :=
  match secret, signature with
  | some s, some k =>
    s ≠ "" && k ≠ "" && !verifySignature hmacSha1Hex payload k s
  | _, _ => false

/-- The pipeline steps during which deployment failures are suppressed
(`vercel.py` line 112). -/
def initialPipelineSteps : List String :=
  ["deploying", "pr_merged", "pr_created", "integrating", "pending"]

/-- A Vercel webhook request after body extraction: the raw body and
signature header, `data.get("type")`, the id/name `or`-chains over the
nested payload, and `deployment.get("url") or ""`. -/
structure VercelRequest where
  raw_body : String
  x_vercel_signature : Option String
  event_type : Option String
  deployment_id : Option String
  project_name : Option String
  deployment_url : String

/-- Response of the deployment-failure webhook. -/
inductive VercelResp where
  | httpError (code : Nat) (detail : String)
  | ignoredEvent (event_type : Option String)
  | ignored (reason : String)
  | duplicate (incident_id : Nat)
  | created (incident_id : Nat)
deriving DecidableEq

/-- The endpoint `vercel_webhook` (`vercel.py` lines 73–168), parameterized by the MAC
function, the `getattr(settings, "vercel_webhook_secret", None)` value
and the build logs returned by `_fetch_vercel_logs` (which catches its
own exceptions and returns an error string, so it never raises). -/
def vercel_webhook (hmacSha1Hex : String → String → String)
    (vercel_webhook_secret : Option String) (build_logs : String)
    (db : DB) (req : VercelRequest) : VercelResp × DB × Option QItem :=
  if vercelSigReject hmacSha1Hex vercel_webhook_secret req.x_vercel_signature req.raw_body then
    (.httpError 401 "Invalid signature", db, none)
  else if req.event_type ≠ some "deployment.error" then
    (.ignoredEvent req.event_type, db, none)
  else if !truthyOpt req.deployment_id || !truthyOpt req.project_name then
    (.ignored "missing deployment info", db, none)
  else
    match db.apps.find? (fun a => a.vercel_project_id == req.project_name) with
    | none => (.ignored "app not found", db, none)
    | some app =>
      if initialPipelineSteps.contains app.pipeline_step then
        (.ignored "initial deployment — skipping auto-fix", db, none)
      else
        match db.users.find? (fun u => u.id == app.user_id) with
        | none => (.ignored "no github token", db, none)
        | some user =>
          if user.access_token = "" then (.ignored "no github token", db, none)
          else
            let error_message :=
              "Vercel deployment failed (deployment " ++ req.deployment_id.getD "" ++ ")"
            match findDuplicateIngest db app.id "vercel" error_message with
            | some existing => (.duplicate existing.id, db, none)
            | none =>
              let logs : JsonV := .obj (.cons "build_logs" (.str build_logs)
                (.cons "deployment_url" (.str req.deployment_url) .nil))
              let incident : IncidentR :=
                { id := db.next_incident_id, app_id := app.id, type := "build_error",
                  source := "vercel", status := "open",
                  error_message := error_message, stack_trace := none,
                  logs := some logs }
              let db1 := { db with incidents := db.incidents ++ [incident],
                                   next_incident_id := db.next_incident_id + 1 }
              let itq : QItem :=
                { incident_id := incident.id, app_id := app.id,
                  github_token := user.access_token,
                  repo_owner := app.repo_owner, repo_name := app.repo_name,
                  error_message := error_message, stack_trace := none,
                  logs := some logs }
              (.created incident.id, db1, some itq)

/-- Number of incident rows for a target with a given source and message
(any status). -/
def countMatching (db : DB) (app_id : Nat) (source error_message : String) : Nat :=
  (db.incidents.filter (fun i =>
    i.app_id == app_id && i.source == source && i.error_message == error_message)).length

/-! ## Helper lemmas -/

lemma find?_status_map (l : List IncidentR) (iid : Nat) (st : String) :
    (l.map (fun i => if i.id = iid then { i with status := st } else i)).find?
        (fun i => i.id == iid) =
      (l.find? (fun i => i.id == iid)).map (fun i => { i with status := st }) := by
  induction l with
  | nil => rfl
  | cons i tl ih =>
    by_cases h : i.id = iid
    · simp [h]
    · simp [h, ih]

lemma findIncident_setStatus (db : DB) (iid : Nat) (st : String) :
    findIncident (setIncidentStatus db iid st) iid =
      (findIncident db iid).map (fun i => { i with status := st }) := by
  unfold findIncident setIncidentStatus
  exact find?_status_map db.incidents iid st

lemma incidentStatus_setStatus (db : DB) (iid : Nat) (st : String) :
    incidentStatus (setIncidentStatus db iid st) iid =
      (findIncident db iid).map (fun _ => st) := by
  unfold incidentStatus
  rw [findIncident_setStatus]
  cases findIncident db iid <;> rfl

lemma setStatus_analyses (db : DB) (iid : Nat) (st : String) :
    (setIncidentStatus db iid st).analyses = db.analyses := rfl

lemma findIncident_newAnalyses (db : DB) (a : List AnalysisR) (iid : Nat) :
    findIncident { db with analyses := a } iid = findIncident db iid := rfl

/-- Shape of a failed run: one failure Analysis row is appended and the
incident is reset to `open`. -/
lemma run_error_outcome (db : DB) (item : QItem) (e : String)
    (h : (findIncident db item.incident_id).isSome = true) :
    incidentStatus (run_incident_analysis db item (.error e)) item.incident_id
        = some "open" ∧
    (run_incident_analysis db item (.error e)).analyses =
      db.analyses ++
        [{ incident_id := item.incident_id, llm_model := "claude-sonnet-4",
           prompt := itemPrompt item, root_cause := "Analysis failed: " ++ e,
           suggested_fix := none, files_analyzed := none, commits_analyzed := none,
           pr_url := none, pr_number := none, branch_name := none }] := by
  obtain ⟨i, hi⟩ := Option.isSome_iff_exists.mp h
  constructor
  · simp only [run_incident_analysis, hi, runnerFinish]
    rw [incidentStatus_setStatus, findIncident_newAnalyses, findIncident_setStatus, hi]
    rfl
  · simp only [run_incident_analysis, hi, runnerFinish, setStatus_analyses]

/-- Shape of a successful run: one Analysis row is appended with the
parsed fields, and the status follows the presence of a PR URL. -/
lemma run_ok_outcome (db : DB) (item : QItem) (out : String)
    (h : (findIncident db item.incident_id).isSome = true) :
    incidentStatus (run_incident_analysis db item (.ok out)) item.incident_id
        = some (if (findPRUrl out).isSome then "pr_created" else "analyzing") ∧
    (run_incident_analysis db item (.ok out)).analyses =
      db.analyses ++
        [{ incident_id := item.incident_id, llm_model := "claude-sonnet-4",
           prompt := itemPrompt item,
           root_cause := pyOrStr (parseRootCause out)
             "Analysis completed but root cause could not be parsed.",
           suggested_fix := some (.obj (.cons "agent_output"
             (.str (pyTakeLast 2000 out)) .nil)),
           files_analyzed := parseFilesAnalyzed out,
           commits_analyzed := parseCommitsAnalyzed out,
           pr_url := (findPRUrl out).map (·.1),
           pr_number := (findPRUrl out).map (·.2),
           branch_name := some ("sanos/fix-incident-" ++ toString item.incident_id) }] := by
  obtain ⟨i, hi⟩ := Option.isSome_iff_exists.mp h
  constructor
  · simp only [run_incident_analysis, hi, runnerFinish]
    rw [incidentStatus_setStatus, findIncident_newAnalyses, findIncident_setStatus, hi]
    rfl
  · simp only [run_incident_analysis, hi, runnerFinish, setStatus_analyses]

lemma getLast?_append_singleton {α : Type} (l : List α) (a : α) :
    (l ++ [a]).getLast? = some a := by
  rw [List.getLast?_append_cons]
  rfl

/-! ## C5 — agent failure resets the incident to `open` with a failure
Analysis row -/

/-- C5: for every processed item whose external agent call raises, the
runner persists an Analysis record documenting the failure (with no
parsed fields) and sets the incident's status back to `open`. -/
theorem agent_failure_resets_open (db : DB) (item : QItem) (e : String)
    (h : (findIncident db item.incident_id).isSome = true) :
    incidentStatus (run_incident_analysis db item (.error e)) item.incident_id
        = some "open" ∧
    (run_incident_analysis db item (.error e)).analyses =
      db.analyses ++
        [{ incident_id := item.incident_id, llm_model := "claude-sonnet-4",
           prompt := itemPrompt item, root_cause := "Analysis failed: " ++ e,
           suggested_fix := none, files_analyzed := none, commits_analyzed := none,
           pr_url := none, pr_number := none, branch_name := none }] :=
  run_error_outcome db item e h

/-- Store with a single open incident, for the C5 witness. -/
def c5db : DB :=
  { apps := [], users := [],
    incidents := [{ id := 1, app_id := 1, type := "runtime_error", source := "server",
                    status := "open", error_message := "E", stack_trace := none,
                    logs := none }],
    analyses := [], next_incident_id := 2 }

/-- Queue item for the C5 witness. -/
def c5item : QItem :=
  { incident_id := 1, app_id := 1, github_token := "t", repo_owner := "o",
    repo_name := "r", error_message := "E", stack_trace := none, logs := none }

/-- Witness for C5 at a concrete store and item. -/
theorem agent_failure_resets_open_witness :
    (findIncident c5db c5item.incident_id).isSome = true ∧
    incidentStatus (run_incident_analysis c5db c5item
        (.error "RuntimeError: boom")) c5item.incident_id = some "open" ∧
    (run_incident_analysis c5db c5item (.error "RuntimeError: boom")).analyses =
      c5db.analyses ++
        [{ incident_id := c5item.incident_id, llm_model := "claude-sonnet-4",
           prompt := itemPrompt c5item,
           root_cause := "Analysis failed: " ++ "RuntimeError: boom",
           suggested_fix := none, files_analyzed := none, commits_analyzed := none,
           pr_url := none, pr_number := none, branch_name := none }] :=
  ⟨rfl, agent_failure_resets_open c5db c5item "RuntimeError: boom" rfl⟩

/-! ## C6 — outcome of a successful agent run -/

/-- Store with a single open incident, for the C6 theorems. -/
def c6db : DB :=
  { apps := [], users := [],
    incidents := [{ id := 1, app_id := 1, type := "runtime_error", source := "server",
                    status := "open", error_message := "E", stack_trace := none,
                    logs := none }],
    analyses := [], next_incident_id := 2 }

/-- Queue item for the C6 theorems. -/
def c6item : QItem :=
  { incident_id := 1, app_id := 1, github_token := "t", repo_owner := "o",
    repo_name := "r", error_message := "E", stack_trace := none, logs := none }

/-- Agent output containing a fix-proposal URL that is well-formed in the
spec's generic-host sense but whose host is not `github.com`. -/
def c6out : String := "SANOS_PR=https://gitlab.example.com/octo/repo/pull/12\n"

/-- C6 counterexample: the claim as stated is false.  The agent output
contains a well-formed `https://<host>/<owner>/<repo>/pull/<number>`
fix-proposal URL, yet the incident stays `analyzing` instead of becoming
`pr_created`: the code's pattern accepts only the `github.com` host. -/
theorem pr_url_requires_github_host :
    specContainsFixProposalUrl c6out = true ∧
    findPRUrl c6out = none ∧
    incidentStatus (run_incident_analysis c6db c6item (.ok c6out)) 1
        = some "analyzing" ∧
    incidentStatus (run_incident_analysis c6db c6item (.ok c6out)) 1
        ≠ some "pr_created" := by
  refine ⟨rfl, rfl, rfl, ?_⟩
  intro h
  rw [show incidentStatus (run_incident_analysis c6db c6item (.ok c6out)) 1
        = some "analyzing" from rfl] at h
  simp at h

/-- C6 as amended: on agent success exactly one Analysis row is created;
if the output contains a PR URL in the code's `github.com` pattern, the
incident becomes `pr_created` and the row's `pr_url` is exactly the
matched URL; otherwise the incident stays `analyzing`. -/
theorem agent_success_outcome (db : DB) (item : QItem) (out : String)
    (h : (findIncident db item.incident_id).isSome = true) :
    (run_incident_analysis db item (.ok out)).analyses.length
        = db.analyses.length + 1 ∧
    (∀ url n, findPRUrl out = some (url, n) →
      incidentStatus (run_incident_analysis db item (.ok out)) item.incident_id
          = some "pr_created" ∧
      ((run_incident_analysis db item (.ok out)).analyses.getLast?).map
          AnalysisR.pr_url = some (some url)) ∧
    (findPRUrl out = none →
      incidentStatus (run_incident_analysis db item (.ok out)) item.incident_id
          = some "analyzing") := by
  obtain ⟨hst, han⟩ := run_ok_outcome db item out h
  refine ⟨?_, ?_, ?_⟩
  · rw [han, List.length_append]
    rfl
  · intro url n hp
    refine ⟨?_, ?_⟩
    · rw [hst, hp]
      rfl
    · rw [han, getLast?_append_singleton]
      simp [hp]
  · intro hp
    rw [hst, hp]
    rfl

/-- Agent output with a PR URL in the code's pattern, for the C6 witness. -/
def c6okOut : String :=
  "ROOT_CAUSE: off-by-one\nFILES_ANALYZED: a.ts\nCOMMITS_ANALYZED: abc\nSANOS_PR=https://github.com/o/r/pull/7\n"

/-- Witness for C6 (amended) at a concrete store, item and output. -/
theorem agent_success_outcome_witness :
    (findIncident c6db c6item.incident_id).isSome = true ∧
    ((run_incident_analysis c6db c6item (.ok c6okOut)).analyses.length
        = c6db.analyses.length + 1 ∧
    (∀ url n, findPRUrl c6okOut = some (url, n) →
      incidentStatus (run_incident_analysis c6db c6item (.ok c6okOut)) c6item.incident_id
          = some "pr_created" ∧
      ((run_incident_analysis c6db c6item (.ok c6okOut)).analyses.getLast?).map
          AnalysisR.pr_url = some (some url)) ∧
    (findPRUrl c6okOut = none →
      incidentStatus (run_incident_analysis c6db c6item (.ok c6okOut)) c6item.incident_id
          = some "analyzing")) :=
  ⟨rfl, agent_success_outcome c6db c6item c6okOut rfl⟩

/-! ## C1 — the dequeue-time dedup filter ignores `source` -/

/-- Store for C1: two open incidents of the same app with the same error
message but different sources; no other incident shares incident 2's
`(target, source, message)` tuple. -/
def c1db : DB :=
  { apps := [], users := [],
    incidents :=
      [{ id := 1, app_id := 1, type := "runtime_error", source := "server",
         status := "open", error_message := "E", stack_trace := none, logs := none },
       { id := 2, app_id := 1, type := "runtime_error", source := "client-global",
         status := "open", error_message := "E", stack_trace := none, logs := none }],
    analyses := [], next_incident_id := 3 }

/-- Dequeued queue item for incident 2 (note the item carries no
`source` field at all). -/
def c1item : QItem :=
  { incident_id := 2, app_id := 1, github_token := "t", repo_owner := "o",
    repo_name := "r", error_message := "E", stack_trace := none, logs := none }

/-- C1: evaluation at the failing input.  The spec's filter (matching on
the full `(target_id, source, error_message)` tuple, as the code's own
comment also states) admits incident 2, yet the worker's dedup query —
which omits `source` — signals duplicate and drops the item: the store is
unchanged and no Analysis row is written. -/
theorem dedup_dequeue_ignores_source :
    shouldAdmitSpec c1db 1 "client-global" "E" (some 2) = true ∧
    (findDuplicateDequeue c1db c1item.app_id c1item.error_message
        c1item.incident_id).isSome = true ∧
    workerStep c1db c1item (.ok "ROOT_CAUSE: x\n") = c1db ∧
    (workerStep c1db c1item (.ok "ROOT_CAUSE: x\n")).analyses = [] :=
  ⟨rfl, rfl, rfl, rfl⟩

/-! ## C10 — the deployment-failure webhook's signature gate -/

lemma vercel_after_gate_not_401 (hmacSha1Hex : String → String → String)
    (secret : Option String) (bl : String) (db : DB) (req : VercelRequest)
    (hgate : vercelSigReject hmacSha1Hex secret req.x_vercel_signature req.raw_body = false) :
    (vercel_webhook hmacSha1Hex secret bl db req).1
      ≠ VercelResp.httpError 401 "Invalid signature" := by
  unfold vercel_webhook
  rw [hgate]
  simp only [Bool.false_eq_true, if_false]
  repeat' split
  all_goals intro h
  all_goals exact VercelResp.noConfusion h

/-- C10: the handler answers 401 "Invalid signature" exactly when a
secret is configured (truthy), the request carries a truthy signature
header, and the HMAC-SHA1 hexdigest of the raw body differs from the
header; in particular a request with no signature header behaves exactly
as if no secret were configured. -/
theorem vercel_signature_gate (hmacSha1Hex : String → String → String)
    (secret : Option String) (bl : String) (db : DB) (req : VercelRequest) :
    ((vercel_webhook hmacSha1Hex secret bl db req).1
        = VercelResp.httpError 401 "Invalid signature" ↔
      ∃ s k, secret = some s ∧ s ≠ "" ∧ req.x_vercel_signature = some k ∧ k ≠ "" ∧
        hmacSha1Hex s req.raw_body ≠ k) ∧
    (req.x_vercel_signature = none →
      vercel_webhook hmacSha1Hex secret bl db req
        = vercel_webhook hmacSha1Hex none bl db req) := by
  constructor
  · constructor
    · intro h401
      cases hgate : vercelSigReject hmacSha1Hex secret req.x_vercel_signature req.raw_body with
      | false => exact absurd h401 (vercel_after_gate_not_401 hmacSha1Hex secret bl db req hgate)
      | true =>
        unfold vercelSigReject at hgate
        cases hsec : secret with
        | none => rw [hsec] at hgate; cases req.x_vercel_signature <;> simp at hgate
        | some s =>
          cases hsig : req.x_vercel_signature with
          | none => rw [hsec, hsig] at hgate; simp at hgate
          | some k =>
            rw [hsec, hsig] at hgate
            simp only [Bool.and_eq_true, Bool.not_eq_true', decide_eq_true_eq] at hgate
            obtain ⟨⟨hs, hk⟩, hv⟩ := hgate
            refine ⟨s, k, rfl, hs, rfl, hk, ?_⟩
            unfold verifySignature at hv
            rw [if_neg hs] at hv
            intro heq
            rw [heq] at hv
            simp at hv
    · rintro ⟨s, k, hsec, hs, hsig, hk, hne⟩
      have hgate : vercelSigReject hmacSha1Hex secret req.x_vercel_signature req.raw_body = true := by
        rw [hsec, hsig]
        show (decide (s ≠ "") && decide (k ≠ "") &&
          !verifySignature hmacSha1Hex req.raw_body k s) = true
        unfold verifySignature
        rw [if_neg hs]
        simp [hs, hk, hne]
      unfold vercel_webhook
      rw [hgate]
      rfl
  · intro hsig
    have h1 : vercelSigReject hmacSha1Hex secret req.x_vercel_signature req.raw_body = false := by
      rw [hsig]; unfold vercelSigReject; cases secret <;> rfl
    have h2 : vercelSigReject hmacSha1Hex none req.x_vercel_signature req.raw_body = false := by
      rw [hsig]
      rfl
    unfold vercel_webhook
    rw [h1, h2]

/-- Request with a mismatching signature header, for the C10 witness. -/
def c10reqA : VercelRequest :=
  { raw_body := "body", x_vercel_signature := some "bb", event_type := some "ping",
    deployment_id := none, project_name := none, deployment_url := "" }

/-- Request carrying no signature header, for the C10 witness. -/
def c10reqB : VercelRequest :=
  { raw_body := "body", x_vercel_signature := none, event_type := some "ping",
    deployment_id := none, project_name := none, deployment_url := "" }

/-- Empty store for the C10 witness. -/
def c10db : DB :=
  { apps := [], users := [], incidents := [], analyses := [], next_incident_id := 1 }

/-- Witness for C10 at a concrete MAC function, secret and requests. -/
theorem vercel_signature_gate_witness :
    (vercel_webhook (fun _ _ => "aa") (some "s") "" c10db c10reqA).1
        = VercelResp.httpError 401 "Invalid signature" ∧
    (c10reqB.x_vercel_signature = none ∧
      vercel_webhook (fun _ _ => "aa") (some "s") "" c10db c10reqB
        = vercel_webhook (fun _ _ => "aa") none "" c10db c10reqB) :=
  ⟨(vercel_signature_gate (fun _ _ => "aa") (some "s") "" c10db c10reqA).1.mpr
      ⟨"s", "bb", rfl, by decide, rfl, by decide, by decide⟩,
   rfl,
   (vercel_signature_gate (fun _ _ => "aa") (some "s") "" c10db c10reqB).2 rfl⟩

/-! ## C4 — a failure on one item never stops the worker -/

/-- C4: the runner's failure path is total (the agent exception is caught
and converted into the `open` reset), and the worker's drain of the items
after a failing one is exactly the normal drain from the post-failure
store: one incident's failure never prevents processing the next queued
items for that target. -/
theorem worker_continues_after_failure (db : DB) (pre : List (QItem × AgentResult))
    (item : QItem) (e : String) (post : List (QItem × AgentResult)) :
    workerRun db (pre ++ (item, Except.error e) :: post) =
      workerRun (workerStep (workerRun db pre) item (Except.error e)) post ∧
    ((findDuplicateDequeue (workerRun db pre) item.app_id item.error_message
        item.incident_id).isSome = false →
      (findIncident (workerRun db pre) item.incident_id).isSome = true →
      incidentStatus (workerStep (workerRun db pre) item (Except.error e))
          item.incident_id = some "open") := by
  constructor
  · simp [workerRun, List.foldl_append]
  · intro hdup hfound
    simp only [workerStep, hdup, Bool.false_eq_true, if_false]
    exact (run_error_outcome (workerRun db pre) item e hfound).1

/-- Store with two open incidents of one app, for the C4 witness. -/
def c4db : DB :=
  { apps := [], users := [],
    incidents :=
      [{ id := 1, app_id := 1, type := "runtime_error", source := "server",
         status := "open", error_message := "E1", stack_trace := none, logs := none },
       { id := 2, app_id := 1, type := "runtime_error", source := "server",
         status := "open", error_message := "E2", stack_trace := none, logs := none }],
    analyses := [], next_incident_id := 3 }

/-- First queued item (its agent call will fail), for the C4 witness. -/
def c4it1 : QItem :=
  { incident_id := 1, app_id := 1, github_token := "t", repo_owner := "o",
    repo_name := "r", error_message := "E1", stack_trace := none, logs := none }

/-- Second queued item, for the C4 witness. -/
def c4it2 : QItem :=
  { incident_id := 2, app_id := 1, github_token := "t", repo_owner := "o",
    repo_name := "r", error_message := "E2", stack_trace := none, logs := none }

/-- Witness for C4 at a concrete store and queue contents. -/
theorem worker_continues_after_failure_witness :
    (findDuplicateDequeue (workerRun c4db []) c4it1.app_id c4it1.error_message
        c4it1.incident_id).isSome = false ∧
    (findIncident (workerRun c4db []) c4it1.incident_id).isSome = true ∧
    incidentStatus (workerStep (workerRun c4db []) c4it1 (Except.error "boom"))
        c4it1.incident_id = some "open" ∧
    workerRun c4db [(c4it1, Except.error "boom"), (c4it2, Except.ok "x")] =
      workerRun (workerStep (workerRun c4db []) c4it1 (Except.error "boom"))
        [(c4it2, Except.ok "x")] :=
  ⟨rfl, rfl,
   (worker_continues_after_failure c4db [] c4it1 "boom" [(c4it2, Except.ok "x")]).2 rfl rfl,
   (worker_continues_after_failure c4db [] c4it1 "boom" [(c4it2, Except.ok "x")]).1⟩

/-! ## C2 — a non-empty queue always has a registered worker -/

lemma upd_same {β : Type} (f : Nat → β) (a : Nat) (v : β) : upd f a v a = v := by
  simp [upd]

lemma upd_other {β : Type} (f : Nat → β) (a x : Nat) (v : β) (h : x ≠ a) :
    upd f a v x = f x := by
  simp [upd, h]

lemma enqueueStep_workers_app (s : SysState) (item : QItem) :
    (enqueueStep s item).workers item.app_id ≠ none := by
  unfold enqueueStep
  cases hw : s.workers item.app_id with
  | none => simp [upd]
  | some w => simp [hw]

lemma enqueueStep_workers_other (s : SysState) (item : QItem) (a : Nat)
    (hne : a ≠ item.app_id) :
    (enqueueStep s item).workers a = s.workers a := by
  unfold enqueueStep
  cases hw : s.workers item.app_id with
  | none => simp [upd, hne]
  | some w => simp

lemma enqueueStep_queues_other (s : SysState) (item : QItem) (a : Nat)
    (hne : a ≠ item.app_id) :
    (enqueueStep s item).queues a = s.queues a :=
  upd_other _ _ _ _ hne

/-- C2: in every reachable state — in particular just after any
`enqueue_incident` call returns — a target with a non-empty queue has a
worker registered for it: no interleaving leaves a queued item with no
worker.  (A finished-but-unreaped worker is not observable: the pop in
the worker's `finally` and the task's completion are one atomic segment,
see the `Step` model.) -/
theorem queue_nonempty_implies_worker (db0 : DB) (s : SysState)
    (h : Reachable db0 s) :
    ∀ a, s.queues a ≠ [] → s.workers a ≠ none := by
  unfold Reachable at h
  induction h with
  | refl =>
    intro a ha
    exact absurd rfl ha
  | tail hsteps hstep ih =>
    rename_i t c
    intro a ha
    cases hstep with
    | enqueue item =>
      by_cases hax : a = item.app_id
      · subst hax
        exact enqueueStep_workers_app t item
      · rw [enqueueStep_workers_other t item a hax]
        rw [enqueueStep_queues_other t item a hax] at ha
        exact ih a ha
    | dequeue_skip a' item rest hw hq hdup =>
      show (dequeueSkipStep t a' item rest).workers a ≠ none
      by_cases hax : a = a'
      · subst hax
        show t.workers a ≠ none
        rw [hw]
        simp
      · show t.workers a ≠ none
        have hqa : (dequeueSkipStep t a' item rest).queues a = t.queues a :=
          upd_other _ _ _ _ hax
        rw [hqa] at ha
        exact ih a ha
    | dequeue_missing a' item rest hw hq hdup hmiss =>
      show (dequeueSkipStep t a' item rest).workers a ≠ none
      by_cases hax : a = a'
      · subst hax
        show t.workers a ≠ none
        rw [hw]
        simp
      · show t.workers a ≠ none
        have hqa : (dequeueSkipStep t a' item rest).queues a = t.queues a :=
          upd_other _ _ _ _ hax
        rw [hqa] at ha
        exact ih a ha
    | dequeue_start a' item rest hw hq hdup hfound =>
      show (dequeueStartStep t a' item rest).workers a ≠ none
      by_cases hax : a = a'
      · subst hax
        show upd t.workers a (some (.processing item)) a ≠ none
        rw [upd_same]
        simp
      · show upd t.workers a' (some (.processing item)) a ≠ none
        rw [upd_other _ _ _ _ hax]
        have hqa : (dequeueStartStep t a' item rest).queues a = t.queues a :=
          upd_other _ _ _ _ hax
        rw [hqa] at ha
        exact ih a ha
    | finish a' item res hw =>
      show upd t.workers a' (some .atLoop) a ≠ none
      by_cases hax : a = a'
      · subst hax
        rw [upd_same]
        simp
      · rw [upd_other _ _ _ _ hax]
        exact ih a ha
    | exit a' hw hq =>
      show upd t.workers a' none a ≠ none
      by_cases hax : a = a'
      · subst hax
        exact absurd hq ha
      · rw [upd_other _ _ _ _ hax]
        exact ih a ha

/-- Empty store for the C2 witness. -/
def c2db : DB :=
  { apps := [], users := [], incidents := [], analyses := [], next_incident_id := 1 }

/-- Enqueued item for the C2 witness. -/
def c2item : QItem :=
  { incident_id := 1, app_id := 1, github_token := "t", repo_owner := "o",
    repo_name := "r", error_message := "E", stack_trace := none, logs := none }

/-- State just after one `enqueue_incident` call, for the C2 witness. -/
def c2s : SysState := enqueueStep (initState c2db) c2item

/-- Witness for C2 at a concrete reachable state with a queued item. -/
theorem queue_nonempty_implies_worker_witness :
    Reachable c2db c2s ∧ c2s.queues 1 ≠ [] ∧ c2s.workers 1 ≠ none :=
  ⟨Relation.ReflTransGen.single (Step.enqueue (initState c2db) c2item),
   by
     rw [show c2s.queues 1 = [c2item] from rfl]
     simp,
   queue_nonempty_implies_worker c2db c2s
     (Relation.ReflTransGen.single (Step.enqueue (initState c2db) c2item)) 1
     (by
       rw [show c2s.queues 1 = [c2item] from rfl]
       simp)⟩

/-! ## C3 — FIFO processing per target, though more than one incident
can be in status `analyzing` at once -/

lemma fifo_aux (db0 : DB) (s : SysState) (h : Reachable db0 s) :
    ∀ a, s.enq_trace a = s.deq_trace a ++ s.queues a := by
  unfold Reachable at h
  induction h with
  | refl =>
    intro a
    rfl
  | tail hsteps hstep ih =>
    rename_i t c
    intro a
    cases hstep with
    | enqueue item =>
      show upd t.enq_trace item.app_id (t.enq_trace item.app_id ++ [item]) a =
        t.deq_trace a ++ upd t.queues item.app_id (t.queues item.app_id ++ [item]) a
      by_cases hax : a = item.app_id
      · rw [hax, upd_same, upd_same, ih item.app_id, List.append_assoc]
      · rw [upd_other _ _ _ _ hax, upd_other _ _ _ _ hax]
        exact ih a
    | dequeue_skip a' item rest hw hq hdup =>
      show t.enq_trace a =
        upd t.deq_trace a' (t.deq_trace a' ++ [item]) a ++ upd t.queues a' rest a
      by_cases hax : a = a'
      · rw [hax, upd_same, upd_same, ih a', hq]
        simp
      · rw [upd_other _ _ _ _ hax, upd_other _ _ _ _ hax]
        exact ih a
    | dequeue_missing a' item rest hw hq hdup hmiss =>
      show t.enq_trace a =
        upd t.deq_trace a' (t.deq_trace a' ++ [item]) a ++ upd t.queues a' rest a
      by_cases hax : a = a'
      · rw [hax, upd_same, upd_same, ih a', hq]
        simp
      · rw [upd_other _ _ _ _ hax, upd_other _ _ _ _ hax]
        exact ih a
    | dequeue_start a' item rest hw hq hdup hfound =>
      show t.enq_trace a =
        upd t.deq_trace a' (t.deq_trace a' ++ [item]) a ++ upd t.queues a' rest a
      by_cases hax : a = a'
      · rw [hax, upd_same, upd_same, ih a', hq]
        simp
      · rw [upd_other _ _ _ _ hax, upd_other _ _ _ _ hax]
        exact ih a
    | finish a' item res hw =>
      exact ih a
    | exit a' hw hq =>
      exact ih a

/-- C3 as amended: for every target, in every reachable state the
sequence of items ever enqueued equals the sequence of items already
dequeued followed by the pending queue — items are dequeued one at a
time in exact FIFO order — and the single worker slot per target
processes at most one item at any instant.  (The claim's further
assertion that at most one incident per target can be in *status*
`analyzing` is false: see the counterexample.) -/
theorem fifo_per_target (db0 : DB) (s : SysState) (h : Reachable db0 s) :
    ∀ a, s.enq_trace a = s.deq_trace a ++ s.queues a ∧
      ∀ i1 i2 : QItem, s.workers a = some (WCtl.processing i1) →
        s.workers a = some (WCtl.processing i2) → i1 = i2 := by
  intro a
  refine ⟨fifo_aux db0 s h a, ?_⟩
  intro i1 i2 h1 h2
  have h3 := h1.symm.trans h2
  simp only [Option.some.injEq, WCtl.processing.injEq] at h3
  exact h3

/-- Store for the C3 counterexample: two open incidents of app 1 with
distinct messages. -/
def c3db : DB :=
  { apps := [], users := [],
    incidents :=
      [{ id := 1, app_id := 1, type := "runtime_error", source := "server",
         status := "open", error_message := "E1", stack_trace := none, logs := none },
       { id := 2, app_id := 1, type := "runtime_error", source := "server",
         status := "open", error_message := "E2", stack_trace := none, logs := none }],
    analyses := [], next_incident_id := 3 }

/-- Queue item for incident 1. -/
def c3t1 : QItem :=
  { incident_id := 1, app_id := 1, github_token := "t", repo_owner := "o",
    repo_name := "r", error_message := "E1", stack_trace := none, logs := none }

/-- Queue item for incident 2. -/
def c3t2 : QItem :=
  { incident_id := 2, app_id := 1, github_token := "t", repo_owner := "o",
    repo_name := "r", error_message := "E2", stack_trace := none, logs := none }

/-- After `enqueue_incident` for incident 1. -/
def c3s1 : SysState := enqueueStep (initState c3db) c3t1

/-- After `enqueue_incident` for incident 2. -/
def c3s2 : SysState := enqueueStep c3s1 c3t2

/-- The worker dequeues item 1 and marks incident 1 `analyzing`. -/
def c3s3 : SysState := dequeueStartStep c3s2 1 c3t1 [c3t2]

/-- The agent returns output without a PR URL: incident 1 stays
`analyzing`. -/
def c3s4 : SysState := finishStep c3s3 1 c3t1 (Except.ok "done")

/-- The worker dequeues item 2 and marks incident 2 `analyzing` while
incident 1 is still `analyzing`. -/
def c3s5 : SysState := dequeueStartStep c3s4 1 c3t2 []

lemma c3_chain : Reachable c3db c3s5 :=
  Relation.ReflTransGen.tail
    (Relation.ReflTransGen.tail
      (Relation.ReflTransGen.tail
        (Relation.ReflTransGen.tail
          (Relation.ReflTransGen.single (Step.enqueue (initState c3db) c3t1))
          (Step.enqueue c3s1 c3t2))
        (Step.dequeue_start c3s2 1 c3t1 [c3t2] rfl rfl rfl rfl))
      (Step.finish c3s3 1 c3t1 (Except.ok "done") rfl))
    (Step.dequeue_start c3s4 1 c3t2 [] rfl rfl rfl rfl)

/-- C3 counterexample: a reachable state in which two incidents of the
same target are simultaneously in status `analyzing` — the first item's
agent run found no PR URL, which leaves its incident `analyzing`, and the
worker then marked the second incident `analyzing`. -/
theorem two_incidents_analyzing_reachable :
    Reachable c3db c3s5 ∧
    incidentStatus c3s5.db 1 = some "analyzing" ∧
    incidentStatus c3s5.db 2 = some "analyzing" ∧
    (findIncident c3s5.db 1).map IncidentR.app_id = some 1 ∧
    (findIncident c3s5.db 2).map IncidentR.app_id = some 1 :=
  ⟨c3_chain, rfl, rfl, rfl, rfl⟩

/-- Witness for C3 (amended) at the concrete reachable state. -/
theorem fifo_per_target_witness :
    Reachable c3db c3s5 ∧
    (c3s5.enq_trace 1 = c3s5.deq_trace 1 ++ c3s5.queues 1 ∧
      ∀ i1 i2 : QItem, c3s5.workers 1 = some (WCtl.processing i1) →
        c3s5.workers 1 = some (WCtl.processing i2) → i1 = i2) :=
  ⟨c3_chain, fifo_per_target c3db c3s5 c3_chain 1⟩

/-! ## C9 — runtime-error webhook: authentication and duplicate
handling -/

lemma find?_append_none {α : Type} (l1 l2 : List α) (p : α → Bool)
    (h : l1.find? p = none) :
    (l1 ++ l2).find? p = l2.find? p := by
  induction l1 with
  | nil => rfl
  | cons x tl ih =>
    cases hpx : p x with
    | true =>
      rw [List.find?_cons_of_pos _ hpx] at h
      exact absurd h (by simp)
    | false =>
      rw [List.find?_cons_of_neg _ (by simp [hpx])] at h
      rw [List.cons_append, List.find?_cons_of_neg _ (by simp [hpx])]
      exact ih h

lemma map_setStatus_id (l : List IncidentR) (n : Nat) (st : String)
    (h : ∀ i ∈ l, i.id ≠ n) :
    l.map (fun i => if i.id = n then { i with status := st } else i) = l := by
  induction l with
  | nil => rfl
  | cons x tl ih =>
    have hx : x.id ≠ n := h x (List.mem_cons_self x tl)
    simp only [List.map_cons, if_neg hx]
    rw [ih (fun i hi => h i (List.mem_cons_of_mem x hi))]

/-- C9: a request with an unknown webhook key is rejected with no state
change; and when a report is admitted (no matching row yet), a second
identical report — submitted while the first incident is in any
non-terminal status — answers `duplicate` with the first incident's id,
changes nothing, and exactly one row for that (target, source, message)
exists.  Fresh-id hypothesis: no existing row already uses the
autoincrement id. -/
theorem logs_webhook_auth_and_dedup :
    (∀ (db : DB) (payload : ErrorPayload),
      db.apps.find? (fun a => a.webhook_key == payload.webhook_key) = none →
      receive_error_log db payload
        = (.httpError 404 "Unknown webhook key", db, none)) ∧
    (∀ (db : DB) (payload : ErrorPayload) (app : AppR) (st : String)
        (resp1 : LogsResp) (db1 : DB) (enq1 : Option QItem),
      db.apps.find? (fun a => a.webhook_key == payload.webhook_key) = some app →
      countMatching db app.id payload.source payload.error_message = 0 →
      nonTerminalStatuses.contains st = true →
      (∀ i ∈ db.incidents, i.id ≠ db.next_incident_id) →
      receive_error_log db payload = (resp1, db1, enq1) →
      resp1 = .created db.next_incident_id ∧
      (receive_error_log (setIncidentStatus db1 db.next_incident_id st) payload).1
        = .duplicate db.next_incident_id ∧
      (receive_error_log (setIncidentStatus db1 db.next_incident_id st) payload).2.1
        = setIncidentStatus db1 db.next_incident_id st ∧
      countMatching (setIncidentStatus db1 db.next_incident_id st)
        app.id payload.source payload.error_message = 1) := by
  constructor
  · intro db payload h
    simp only [receive_error_log, h]
  · intro db payload app st resp1 db1 enq1 happ h0 hst hfresh heq
    have hfil1 : db.incidents.filter (fun i =>
        i.app_id == app.id && i.source == payload.source &&
          i.error_message == payload.error_message) = [] :=
      List.length_eq_zero.mp h0
    have hmem : ∀ i ∈ db.incidents,
        (i.app_id == app.id && i.source == payload.source &&
          i.error_message == payload.error_message) = false := by
      intro i hi
      have := List.filter_eq_nil_iff.mp hfil1 i hi
      simpa using this
    have hdup1 : findDuplicateIngest db app.id payload.source
        payload.error_message = none := by
      apply List.find?_eq_none.mpr
      intro x hx hcontra
      have hcontra' : (x.app_id == app.id && x.source == payload.source &&
          x.error_message == payload.error_message &&
          nonTerminalStatuses.contains x.status) = true := hcontra
      have h1 : (x.app_id == app.id && x.source == payload.source &&
          x.error_message == payload.error_message) = true := by
        cases hA : (x.app_id == app.id && x.source == payload.source &&
            x.error_message == payload.error_message) with
        | true => rfl
        | false =>
          rw [hA] at hcontra'
          simp at hcontra'
      rw [hmem x hx] at h1
      exact Bool.noConfusion h1
    have hfst : (receive_error_log db payload).1 = .created db.next_incident_id := by
      simp only [receive_error_log, happ, hdup1]
    have hsnd : (receive_error_log db payload).2.1 =
        { db with
          incidents := db.incidents ++
            [{ id := db.next_incident_id, app_id := app.id, type := "runtime_error",
               source := payload.source, status := "open",
               error_message := payload.error_message,
               stack_trace := payload.stack_trace, logs := payload.logs }],
          next_incident_id := db.next_incident_id + 1 } := by
      simp only [receive_error_log, happ, hdup1]
    have hresp : resp1 = .created db.next_incident_id := by
      rw [← hfst, heq]
    have hdb1 : db1 =
        { db with
          incidents := db.incidents ++
            [{ id := db.next_incident_id, app_id := app.id, type := "runtime_error",
               source := payload.source, status := "open",
               error_message := payload.error_message,
               stack_trace := payload.stack_trace, logs := payload.logs }],
          next_incident_id := db.next_incident_id + 1 } := by
      rw [← hsnd, heq]
    subst hdb1
    refine ⟨hresp, ?_⟩
    have h2inc : (setIncidentStatus
        { db with
          incidents := db.incidents ++
            [{ id := db.next_incident_id, app_id := app.id, type := "runtime_error",
               source := payload.source, status := "open",
               error_message := payload.error_message,
               stack_trace := payload.stack_trace, logs := payload.logs }],
          next_incident_id := db.next_incident_id + 1 }
        db.next_incident_id st).incidents =
        db.incidents ++
          [{ id := db.next_incident_id, app_id := app.id, type := "runtime_error",
             source := payload.source, status := st,
             error_message := payload.error_message,
             stack_trace := payload.stack_trace, logs := payload.logs }] := by
      unfold setIncidentStatus
      simp only [List.map_append,
        map_setStatus_id db.incidents db.next_incident_id st hfresh,
        List.map_cons, List.map_nil]
      simp
    have happ3 : (setIncidentStatus
        { db with
          incidents := db.incidents ++
            [{ id := db.next_incident_id, app_id := app.id, type := "runtime_error",
               source := payload.source, status := "open",
               error_message := payload.error_message,
               stack_trace := payload.stack_trace, logs := payload.logs }],
          next_incident_id := db.next_incident_id + 1 }
        db.next_incident_id st).apps.find?
        (fun a => a.webhook_key == payload.webhook_key) = some app := happ
    have hl1 : db.incidents.find? (fun i =>
        i.app_id == app.id && i.source == payload.source &&
        i.error_message == payload.error_message &&
        nonTerminalStatuses.contains i.status) = none := hdup1
    have hdup3 : findDuplicateIngest (setIncidentStatus
        { db with
          incidents := db.incidents ++
            [{ id := db.next_incident_id, app_id := app.id, type := "runtime_error",
               source := payload.source, status := "open",
               error_message := payload.error_message,
               stack_trace := payload.stack_trace, logs := payload.logs }],
          next_incident_id := db.next_incident_id + 1 }
        db.next_incident_id st)
        app.id payload.source payload.error_message =
        some { id := db.next_incident_id, app_id := app.id, type := "runtime_error",
               source := payload.source, status := st,
               error_message := payload.error_message,
               stack_trace := payload.stack_trace, logs := payload.logs } := by
      unfold findDuplicateIngest
      rw [h2inc, find?_append_none _ _ _ hl1]
      apply List.find?_cons_of_pos
      have hstm : st ∈ nonTerminalStatuses := List.mem_of_elem_eq_true hst
      simp [hstm]
    refine ⟨?_, ?_, ?_⟩
    · simp only [receive_error_log, happ3, hdup3]
    · simp only [receive_error_log, happ3, hdup3]
    · unfold countMatching
      rw [h2inc, List.filter_append, hfil1]
      simp

/-- Store for the C9 witness: one registered app with its webhook key and
an owner holding a token; no incidents yet. -/
def c9db : DB :=
  { apps := [{ id := 1, user_id := 1, repo_owner := "o", repo_name := "r",
               vercel_project_id := none, webhook_key := "key1",
               pipeline_step := "ready" }],
    users := [{ id := 1, access_token := "tok" }],
    incidents := [], analyses := [], next_incident_id := 1 }

/-- The registered app of `c9db`. -/
def c9app : AppR :=
  { id := 1, user_id := 1, repo_owner := "o", repo_name := "r",
    vercel_project_id := none, webhook_key := "key1", pipeline_step := "ready" }

/-- The runtime-error report submitted twice in the C9 scenario. -/
def c9payload : ErrorPayload :=
  { webhook_key := "key1", source := "server",
    error_message := "TypeError: x is undefined", stack_trace := none, logs := none }

/-- Response of the first C9 call. -/
def c9resp1 : LogsResp := .created 1

/-- Store after the first C9 call. -/
def c9db1 : DB :=
  { apps := c9db.apps, users := c9db.users,
    incidents := [{ id := 1, app_id := 1, type := "runtime_error", source := "server",
                    status := "open", error_message := "TypeError: x is undefined",
                    stack_trace := none, logs := none }],
    analyses := [], next_incident_id := 2 }

/-- Enqueue call made by the first C9 call. -/
def c9enq1 : Option QItem :=
  some { incident_id := 1, app_id := 1, github_token := "tok", repo_owner := "o",
         repo_name := "r", error_message := "TypeError: x is undefined",
         stack_trace := none, logs := none }

/-- Witness for C9: the unknown-key rejection and the created-then-
duplicate scenario, at concrete stores and payloads. -/
theorem logs_webhook_auth_and_dedup_witness :
    (c9db.apps.find? (fun a => a.webhook_key ==
        ({ webhook_key := "nope", source := "server", error_message := "E",
           stack_trace := none, logs := none } : ErrorPayload).webhook_key) = none ∧
      receive_error_log c9db
        { webhook_key := "nope", source := "server", error_message := "E",
          stack_trace := none, logs := none }
        = (.httpError 404 "Unknown webhook key", c9db, none)) ∧
    (c9db.apps.find? (fun a => a.webhook_key == c9payload.webhook_key) = some c9app ∧
      countMatching c9db c9app.id c9payload.source c9payload.error_message = 0 ∧
      nonTerminalStatuses.contains "analyzing" = true ∧
      (∀ i ∈ c9db.incidents, i.id ≠ c9db.next_incident_id) ∧
      receive_error_log c9db c9payload = (c9resp1, c9db1, c9enq1) ∧
      (c9resp1 = .created c9db.next_incident_id ∧
        (receive_error_log (setIncidentStatus c9db1 c9db.next_incident_id "analyzing")
            c9payload).1 = .duplicate c9db.next_incident_id ∧
        (receive_error_log (setIncidentStatus c9db1 c9db.next_incident_id "analyzing")
            c9payload).2.1
          = setIncidentStatus c9db1 c9db.next_incident_id "analyzing" ∧
        countMatching (setIncidentStatus c9db1 c9db.next_incident_id "analyzing")
          c9app.id c9payload.source c9payload.error_message = 1)) :=
  ⟨⟨rfl, logs_webhook_auth_and_dedup.1 c9db _ rfl⟩,
   rfl, rfl, rfl, (by simp [c9db]), rfl,
   logs_webhook_auth_and_dedup.2 c9db c9payload c9app "analyzing" c9resp1 c9db1 c9enq1
     rfl rfl rfl (by simp [c9db]) rfl⟩

/-! ## C7 — credential gating at the two ingest endpoints -/

/-- Store for the C7 counterexample: a steady-state app whose owner has
no GitHub token, and no incidents. -/
def c7db : DB :=
  { apps := [{ id := 1, user_id := 1, repo_owner := "o", repo_name := "r",
               vercel_project_id := some "proj", webhook_key := "k",
               pipeline_step := "ready" }],
    users := [{ id := 1, access_token := "" }],
    incidents := [], analyses := [], next_incident_id := 1 }

/-- Deployment-failure request for the C7 counterexample. -/
def c7req : VercelRequest :=
  { raw_body := "b", x_vercel_signature := none,
    event_type := some "deployment.error", deployment_id := some "dep1",
    project_name := some "proj", deployment_url := "u" }

/-- C7 counterexample: at the deployment-failure endpoint, an incident
that would have been admitted (no duplicate exists) is **not** created
when the owner's credential is unavailable — the request is ignored
before the dedup/create steps, contradicting the claim that the endpoint
still records the incident. -/
theorem vercel_missing_credential_creates_nothing :
    vercel_webhook (fun _ _ => "") none "logs" c7db c7req
      = (.ignored "no github token", c7db, none) ∧
    findDuplicateIngest c7db 1 "vercel"
      "Vercel deployment failed (deployment dep1)" = none ∧
    c7db.incidents = [] :=
  ⟨rfl, rfl, rfl⟩

/-- C7 as amended: the runtime-error endpoint still creates the Incident
and silently skips the enqueue when the owner's token is unavailable, and
creates + enqueues when it is available; the deployment-failure endpoint
instead declines the whole request (`ignored`, no incident, no enqueue)
when the token is unavailable, and creates + enqueues when it is
available. -/
theorem credential_gating_endpoints :
    (∀ (db : DB) (payload : ErrorPayload) (app : AppR),
      db.apps.find? (fun a => a.webhook_key == payload.webhook_key) = some app →
      findDuplicateIngest db app.id payload.source payload.error_message = none →
      (∀ user, db.users.find? (fun u => u.id == app.user_id) = some user →
        user.access_token = "") →
      (receive_error_log db payload).1 = .created db.next_incident_id ∧
      (receive_error_log db payload).2.1.incidents = db.incidents ++
        [{ id := db.next_incident_id, app_id := app.id, type := "runtime_error",
           source := payload.source, status := "open",
           error_message := payload.error_message,
           stack_trace := payload.stack_trace, logs := payload.logs }] ∧
      (receive_error_log db payload).2.2 = none) ∧
    (∀ (db : DB) (payload : ErrorPayload) (app : AppR) (user : UserR),
      db.apps.find? (fun a => a.webhook_key == payload.webhook_key) = some app →
      findDuplicateIngest db app.id payload.source payload.error_message = none →
      db.users.find? (fun u => u.id == app.user_id) = some user →
      user.access_token ≠ "" →
      (receive_error_log db payload).1 = .created db.next_incident_id ∧
      (receive_error_log db payload).2.1.incidents = db.incidents ++
        [{ id := db.next_incident_id, app_id := app.id, type := "runtime_error",
           source := payload.source, status := "open",
           error_message := payload.error_message,
           stack_trace := payload.stack_trace, logs := payload.logs }] ∧
      (receive_error_log db payload).2.2 =
        some { incident_id := db.next_incident_id, app_id := app.id,
               github_token := user.access_token,
               repo_owner := app.repo_owner, repo_name := app.repo_name,
               error_message := payload.error_message,
               stack_trace := payload.stack_trace, logs := payload.logs }) ∧
    (∀ (f : String → String → String) (secret : Option String) (bl : String)
        (db : DB) (req : VercelRequest) (app : AppR),
      vercelSigReject f secret req.x_vercel_signature req.raw_body = false →
      req.event_type = some "deployment.error" →
      truthyOpt req.deployment_id = true →
      truthyOpt req.project_name = true →
      db.apps.find? (fun a => a.vercel_project_id == req.project_name) = some app →
      initialPipelineSteps.contains app.pipeline_step = false →
      (∀ user, db.users.find? (fun u => u.id == app.user_id) = some user →
        user.access_token = "") →
      vercel_webhook f secret bl db req = (.ignored "no github token", db, none)) ∧
    (∀ (f : String → String → String) (secret : Option String) (bl : String)
        (db : DB) (req : VercelRequest) (app : AppR) (user : UserR),
      vercelSigReject f secret req.x_vercel_signature req.raw_body = false →
      req.event_type = some "deployment.error" →
      truthyOpt req.deployment_id = true →
      truthyOpt req.project_name = true →
      db.apps.find? (fun a => a.vercel_project_id == req.project_name) = some app →
      initialPipelineSteps.contains app.pipeline_step = false →
      db.users.find? (fun u => u.id == app.user_id) = some user →
      user.access_token ≠ "" →
      findDuplicateIngest db app.id "vercel"
        ("Vercel deployment failed (deployment " ++ req.deployment_id.getD "" ++ ")")
        = none →
      (vercel_webhook f secret bl db req).1 = .created db.next_incident_id ∧
      (vercel_webhook f secret bl db req).2.1.incidents.length
        = db.incidents.length + 1 ∧
      (vercel_webhook f secret bl db req).2.2.isSome = true) := by
  refine ⟨?_, ?_, ?_, ?_⟩
  · intro db payload app happ hdup hcred
    refine ⟨?_, ?_, ?_⟩
    · simp only [receive_error_log, happ, hdup]
    · simp only [receive_error_log, happ, hdup]
    · simp only [receive_error_log, happ, hdup]
      cases huser : db.users.find? (fun u => u.id == app.user_id) with
      | none => rfl
      | some user => simp [hcred user huser]
  · intro db payload app user happ hdup huser htok
    refine ⟨?_, ?_, ?_⟩
    · simp only [receive_error_log, happ, hdup]
    · simp only [receive_error_log, happ, hdup]
    · simp only [receive_error_log, happ, hdup, huser]
      simp [htok]
  · intro f secret bl db req app hgate hevt hdi hpn happ hpipe hcred
    unfold vercel_webhook
    rw [hgate]
    simp only [Bool.false_eq_true, if_false]
    rw [if_neg (by simp [hevt])]
    rw [if_neg (by simp [hdi, hpn])]
    simp only [happ, hpipe, Bool.false_eq_true, if_false]
    cases huser : db.users.find? (fun u => u.id == app.user_id) with
    | none => rfl
    | some user => simp [hcred user huser]
  · intro f secret bl db req app user hgate hevt hdi hpn happ hpipe huser htok hdedup
    unfold vercel_webhook
    rw [hgate]
    simp only [Bool.false_eq_true, if_false]
    rw [if_neg (by simp [hevt])]
    rw [if_neg (by simp [hdi, hpn])]
    simp only [happ, hpipe, Bool.false_eq_true, if_false, huser]
    rw [if_neg htok]
    simp only [hdedup]
    simp [List.length_append]

/-- The registered app of `c7db` (and of `c7dbT`). -/
def c7app : AppR :=
  { id := 1, user_id := 1, repo_owner := "o", repo_name := "r",
    vercel_project_id := some "proj", webhook_key := "k", pipeline_step := "ready" }

/-- Runtime-error payload for the C7 witness. -/
def c7payload : ErrorPayload :=
  { webhook_key := "k", source := "server", error_message := "E",
    stack_trace := none, logs := none }

/-- Like `c7db` but the owner holds a token. -/
def c7dbT : DB :=
  { apps := [c7app],
    users := [{ id := 1, access_token := "tok" }],
    incidents := [], analyses := [], next_incident_id := 1 }

/-- The token-holding owner of `c7dbT`. -/
def c7user : UserR := { id := 1, access_token := "tok" }

/-- Witness for C7 (amended): all four cases at concrete stores. -/
theorem credential_gating_endpoints_witness :
    (c7db.apps.find? (fun a => a.webhook_key == c7payload.webhook_key) = some c7app ∧
      findDuplicateIngest c7db c7app.id c7payload.source c7payload.error_message = none ∧
      (receive_error_log c7db c7payload).1 = .created c7db.next_incident_id ∧
      (receive_error_log c7db c7payload).2.2 = none) ∧
    (c7dbT.users.find? (fun u => u.id == c7app.user_id) = some c7user ∧
      (receive_error_log c7dbT c7payload).1 = .created c7dbT.next_incident_id ∧
      (receive_error_log c7dbT c7payload).2.2 =
        some { incident_id := c7dbT.next_incident_id, app_id := c7app.id,
               github_token := c7user.access_token,
               repo_owner := c7app.repo_owner, repo_name := c7app.repo_name,
               error_message := c7payload.error_message,
               stack_trace := c7payload.stack_trace, logs := c7payload.logs }) ∧
    vercel_webhook (fun _ _ => "") none "logs" c7db c7req
      = (.ignored "no github token", c7db, none) ∧
    ((vercel_webhook (fun _ _ => "") none "logs" c7dbT c7req).1
        = .created c7dbT.next_incident_id ∧
      (vercel_webhook (fun _ _ => "") none "logs" c7dbT c7req).2.2.isSome = true) :=
  ⟨⟨rfl, rfl,
    (credential_gating_endpoints.1 c7db c7payload c7app rfl rfl
      (by intro u hu; injection hu with h; rw [← h])).1,
    (credential_gating_endpoints.1 c7db c7payload c7app rfl rfl
      (by intro u hu; injection hu with h; rw [← h])).2.2⟩,
   ⟨rfl,
    (credential_gating_endpoints.2.1 c7dbT c7payload c7app c7user rfl rfl rfl
      (by decide)).1,
    (credential_gating_endpoints.2.1 c7dbT c7payload c7app c7user rfl rfl rfl
      (by decide)).2.2⟩,
   credential_gating_endpoints.2.2.1 (fun _ _ => "") none "logs" c7db c7req c7app
     rfl rfl (by decide) (by decide) rfl rfl
     (by intro u hu; injection hu with h; rw [← h]),
   ⟨(credential_gating_endpoints.2.2.2 (fun _ _ => "") none "logs" c7dbT c7req c7app
       c7user rfl rfl (by decide) (by decide) rfl rfl rfl (by decide) rfl).1,
    (credential_gating_endpoints.2.2.2 (fun _ _ => "") none "logs" c7dbT c7req c7app
       c7user rfl rfl (by decide) (by decide) rfl rfl rfl (by decide) rfl).2.2⟩⟩

/-! ## C8 — event-type filter and initial-pipeline suppression -/

/-- C8: among requests the signature gate does not reject, only
`deployment.error` events are processed — any other event type gets an
`ignored` acknowledgement with no state change — and even a
`deployment.error` event is ignored while the target's `pipeline_step` is
one of the initial setup/deploy values; once the target is in steady
state (any other `pipeline_step`), the event proceeds to the
token/dedup/create path and, with a credential and no duplicate, creates
and records an incident. -/
theorem vercel_event_and_pipeline_filter :
    (∀ (f : String → String → String) (secret : Option String) (bl : String)
        (db : DB) (req : VercelRequest),
      vercelSigReject f secret req.x_vercel_signature req.raw_body = false →
      req.event_type ≠ some "deployment.error" →
      vercel_webhook f secret bl db req = (.ignoredEvent req.event_type, db, none)) ∧
    (∀ (f : String → String → String) (secret : Option String) (bl : String)
        (db : DB) (req : VercelRequest) (app : AppR),
      vercelSigReject f secret req.x_vercel_signature req.raw_body = false →
      req.event_type = some "deployment.error" →
      truthyOpt req.deployment_id = true →
      truthyOpt req.project_name = true →
      db.apps.find? (fun a => a.vercel_project_id == req.project_name) = some app →
      initialPipelineSteps.contains app.pipeline_step = true →
      vercel_webhook f secret bl db req
        = (.ignored "initial deployment — skipping auto-fix", db, none)) ∧
    (∀ (f : String → String → String) (secret : Option String) (bl : String)
        (db : DB) (req : VercelRequest) (app : AppR) (user : UserR),
      vercelSigReject f secret req.x_vercel_signature req.raw_body = false →
      req.event_type = some "deployment.error" →
      truthyOpt req.deployment_id = true →
      truthyOpt req.project_name = true →
      db.apps.find? (fun a => a.vercel_project_id == req.project_name) = some app →
      initialPipelineSteps.contains app.pipeline_step = false →
      db.users.find? (fun u => u.id == app.user_id) = some user →
      user.access_token ≠ "" →
      findDuplicateIngest db app.id "vercel"
        ("Vercel deployment failed (deployment " ++ req.deployment_id.getD "" ++ ")")
        = none →
      (vercel_webhook f secret bl db req).1 = .created db.next_incident_id ∧
      (vercel_webhook f secret bl db req).2.1.incidents.length
        = db.incidents.length + 1) := by
  refine ⟨?_, ?_, ?_⟩
  · intro f secret bl db req hgate hevt
    unfold vercel_webhook
    rw [hgate]
    simp only [Bool.false_eq_true, if_false]
    rw [if_pos hevt]
  · intro f secret bl db req app hgate hevt hdi hpn happ hpipe
    unfold vercel_webhook
    rw [hgate]
    simp only [Bool.false_eq_true, if_false]
    rw [if_neg (by simp [hevt])]
    rw [if_neg (by simp [hdi, hpn])]
    simp only [happ, hpipe, if_true]
  · intro f secret bl db req app user hgate hevt hdi hpn happ hpipe huser htok hdedup
    unfold vercel_webhook
    rw [hgate]
    simp only [Bool.false_eq_true, if_false]
    rw [if_neg (by simp [hevt])]
    rw [if_neg (by simp [hdi, hpn])]
    simp only [happ, hpipe, Bool.false_eq_true, if_false, huser]
    rw [if_neg htok]
    simp only [hdedup]
    simp [List.length_append]

/-- An app still in its initial `deploying` pipeline step. -/
def c8appSetup : AppR :=
  { id := 1, user_id := 1, repo_owner := "o", repo_name := "r",
    vercel_project_id := some "proj", webhook_key := "k",
    pipeline_step := "deploying" }

/-- Store whose app is still deploying. -/
def c8db1 : DB :=
  { apps := [c8appSetup], users := [{ id := 1, access_token := "tok" }],
    incidents := [], analyses := [], next_incident_id := 1 }

/-- The same app in steady state. -/
def c8appReady : AppR :=
  { id := 1, user_id := 1, repo_owner := "o", repo_name := "r",
    vercel_project_id := some "proj", webhook_key := "k",
    pipeline_step := "ready" }

/-- Store whose app is in steady state. -/
def c8db2 : DB :=
  { apps := [c8appReady], users := [{ id := 1, access_token := "tok" }],
    incidents := [], analyses := [], next_incident_id := 1 }

/-- A `deployment.error` webhook request. -/
def c8req : VercelRequest :=
  { raw_body := "b", x_vercel_signature := none,
    event_type := some "deployment.error", deployment_id := some "d1",
    project_name := some "proj", deployment_url := "u" }

/-- A webhook request of a different event type. -/
def c8reqOther : VercelRequest :=
  { raw_body := "b", x_vercel_signature := none,
    event_type := some "deployment.created", deployment_id := some "d1",
    project_name := some "proj", deployment_url := "u" }

/-- Witness for C8: all three cases at concrete stores and requests. -/
theorem vercel_event_and_pipeline_filter_witness :
    vercel_webhook (fun _ _ => "") none "bl" c8db1 c8reqOther
      = (.ignoredEvent (some "deployment.created"), c8db1, none) ∧
    (initialPipelineSteps.contains c8appSetup.pipeline_step = true ∧
      vercel_webhook (fun _ _ => "") none "bl" c8db1 c8req
        = (.ignored "initial deployment — skipping auto-fix", c8db1, none)) ∧
    (initialPipelineSteps.contains c8appReady.pipeline_step = false ∧
      (vercel_webhook (fun _ _ => "") none "bl" c8db2 c8req).1
        = .created c8db2.next_incident_id ∧
      (vercel_webhook (fun _ _ => "") none "bl" c8db2 c8req).2.1.incidents.length
        = c8db2.incidents.length + 1) :=
  ⟨vercel_event_and_pipeline_filter.1 (fun _ _ => "") none "bl" c8db1 c8reqOther
     rfl (by decide),
   ⟨rfl,
    vercel_event_and_pipeline_filter.2.1 (fun _ _ => "") none "bl" c8db1 c8req
      c8appSetup rfl rfl (by decide) (by decide) rfl rfl⟩,
   ⟨rfl,
    (vercel_event_and_pipeline_filter.2.2 (fun _ _ => "") none "bl" c8db2 c8req
      c8appReady c7user rfl rfl (by decide) (by decide) rfl rfl rfl (by decide) rfl).1,
    (vercel_event_and_pipeline_filter.2.2 (fun _ _ => "") none "bl" c8db2 c8req
      c8appReady c7user rfl rfl (by decide) (by decide) rfl rfl rfl (by decide) rfl).2⟩⟩

end Sanos
